import Mathlib

/-!
# Verification of the Vietnamese lunar calendar converter (`lunar_vn/core.py`)

Shallow embedding of the integer core of the converter, together with proofs
about it.

Modelling conventions:

* Python's `_int_floor(x / y)` on integer operands with a positive literal
  divisor is floor division; it is embedded as `Int.fdiv`, which agrees with
  Lean's `/` (Euclidean division) whenever the divisor is nonnegative.
* The decimal literals `29.530588853` and `2415021.076998695` appearing in the
  new-moon index estimates are embedded as exact rationals over `10 ^ 9`
  (`INT(p / d)` becomes `Int.fdiv (p * 1000000000) 29530588853`, and
  `INT(0.5 + p / d)` becomes `Int.fdiv (2 * p + d) (2 * d)` scaled the same
  way).
* The two astronomical primitives `get_new_moon_day(k, tz)` and
  `get_sun_longitude(jdn, tz)` are IEEE-754 double trigonometric computations
  (truncated sine series); they are not reproduced.  Every function built on
  top of them is embedded parameterized by two abstract functions
  `newMoon sunLong : Int → Int` (the time zone being fixed inside them), so
  each theorem below about the lunar pipeline is proved for *every* possible
  instantiation of the astronomical primitives, hence in particular for the
  real ones.
* `convert_lunar_to_solar` raises `ValueError` in Python; here it returns
  `Except LunarError _`.  The final `datetime.date` construction is modelled
  by returning the `(day, month, year)` triple produced by `jd_to_date`.
-/

namespace LunarVN

/-- Source `jd_from_date(dd, mm, yy)`: Gregorian civil-date-to-JDN
polynomial, recomputed with the Julian formula when the Gregorian result is
below 2299161 (the first Gregorian day, 1582-10-15). -/
def jd_from_date (dd mm yy : Int) : Int :=
  let a := Int.fdiv (14 - mm) 12
  let y := yy + 4800 - a
  let m := mm + 12 * a - 3
  let jd := dd + Int.fdiv (153 * m + 2) 5 + 365 * y + Int.fdiv y 4
      - Int.fdiv y 100 + Int.fdiv y 400 - 32045
  if jd < 2299161 then
    dd + Int.fdiv (153 * m + 2) 5 + 365 * y + Int.fdiv y 4 - 32083
  else
    jd

/-- Source `jd_to_date(jd)`: JDN to `(day, month, year)`, branching on
`jd > 2299160` between the Gregorian and Julian reconstruction formulas. -/
def jd_to_date (jd : Int) : Int × Int × Int :=
  let bc : Int × Int :=
    if jd > 2299160 then
      let a := jd + 32044
      let b := Int.fdiv (4 * a + 3) 146097
      (b, a - Int.fdiv (b * 146097) 4)
    else
      (0, jd + 32082)
  let b := bc.1
  let c := bc.2
  let d := Int.fdiv (4 * c + 3) 1461
  let e := c - Int.fdiv (1461 * d) 4
  let m := Int.fdiv (5 * e + 2) 153
  let day := e - Int.fdiv (153 * m + 2) 5 + 1
  let month := m + 3 - 12 * Int.fdiv m 10
  let year := b * 100 + d - 4800 + Int.fdiv m 10
  (day, month, year)

/-- For a nonnegative divisor, Python's floor division agrees with Lean's
Euclidean division `/` on `Int` (which `omega` understands). -/
theorem fdiv_eq_div (a : Int) {b : Int} (hb : 0 ≤ b) : Int.fdiv a b = a / b :=
  Int.fdiv_eq_ediv a hb

/-- Gregorian leap-year rule.  The source performs no validation, so validity
of a civil date is the quantification domain of the round-trip claim, not a
function of the source. -/
def gregLeap (yy : Int) : Prop :=
  yy % 4 = 0 ∧ (yy % 100 ≠ 0 ∨ yy % 400 = 0)

/-- Julian leap-year rule. -/
def julLeap (yy : Int) : Prop :=
  yy % 4 = 0

instance : ∀ yy : Int, Decidable (gregLeap yy) := fun _ => by
  unfold gregLeap; infer_instance

instance : ∀ yy : Int, Decidable (julLeap yy) := fun _ => by
  unfold julLeap; infer_instance

/-- Number of days of month `mm` given whether the year is leap. -/
def monthLen (leap : Prop) [Decidable leap] (mm : Int) : Int :=
  if mm = 2 then (if leap then 29 else 28)
  else if mm = 4 ∨ mm = 6 ∨ mm = 9 ∨ mm = 11 then 30
  else 31

/-- The date lies on or after 1582-10-15, the first day of the Gregorian
calendar. -/
def onGregorianSide (dd mm yy : Int) : Prop :=
  1582 < yy ∨ (yy = 1582 ∧ (10 < mm ∨ (mm = 10 ∧ 15 ≤ dd)))

/-- The date lies on or before 1582-10-04, the last day of the Julian
calendar. -/
def onJulianSide (dd mm yy : Int) : Prop :=
  yy < 1582 ∨ (yy = 1582 ∧ (mm < 10 ∨ (mm = 10 ∧ dd ≤ 4)))

/-- `(dd, mm, yy)` is a valid proleptic Julian/Gregorian civil date: month in
1..12, day within the month under the leap rule of the calendar in force, and
not one of the ten skipped days 1582-10-05 .. 1582-10-14. -/
def ValidDate (dd mm yy : Int) : Prop :=
  1 ≤ mm ∧ mm ≤ 12 ∧ 1 ≤ dd ∧
    ((onGregorianSide dd mm yy ∧ dd ≤ monthLen (gregLeap yy) mm) ∨
     (onJulianSide dd mm yy ∧ dd ≤ monthLen (julLeap yy) mm))

instance : ∀ dd mm yy : Int, Decidable (ValidDate dd mm yy) := fun _ _ _ => by
  unfold ValidDate onGregorianSide onJulianSide; infer_instance

/-- Century digit of the 400-year Gregorian cycle, extracted by the
`146097`-division of `jd_to_date`.  Here `y` is the March-shifted year of the
encoding and `r` the day offset within that shifted year; `r = 365` occurs
only at the leap day, which constrains `y` modulo 4, 100 and 400. -/
theorem century_of_cycle (y r : Int) (h0 : 0 ≤ r) (h1 : r ≤ 365)
    (hl : r = 365 → y % 4 = 3 ∧ (y % 100 ≠ 99 ∨ y % 400 = 399)) :
    (4 * (365 * y + y / 4 - y / 100 + y / 400 + r) + 3) / 146097 = y / 100 := by
  obtain ⟨q, s, hs0, hs1, rfl⟩ : ∃ q s, 0 ≤ s ∧ s < 400 ∧ y = 400 * q + s :=
    ⟨y / 400, y % 400, by omega, by omega, by omega⟩
  obtain ⟨c2, s2, h20, h21, hc0, hc1, rfl⟩ :
      ∃ c2 s2, 0 ≤ s2 ∧ s2 < 100 ∧ 0 ≤ c2 ∧ c2 ≤ 3 ∧ s = 100 * c2 + s2 :=
    ⟨s / 100, s % 100, by omega, by omega, by omega, by omega, by omega⟩
  interval_cases c2 <;> omega

/-- In-century year digit, extracted by the `1461`-division of
`jd_to_date` (Gregorian branch). -/
theorem year_in_century (k r : Int) (hk0 : 0 ≤ k) (hk1 : k < 100)
    (h0 : 0 ≤ r) (h1 : r ≤ 365) (hl : r = 365 → k % 4 = 3) :
    (4 * (365 * k + k / 4 + r) + 3) / 1461 = k := by
  obtain ⟨p, u, hu0, hu1, rfl⟩ : ∃ p u, 0 ≤ u ∧ u < 4 ∧ k = 4 * p + u :=
    ⟨k / 4, k % 4, by omega, by omega, by omega⟩
  interval_cases u <;> omega

/-- Julian variant of the year extraction: the shifted year is unbounded
since the Julian branch has no century step. -/
theorem year_julian (y r : Int) (h0 : 0 ≤ r) (h1 : r ≤ 365)
    (hl : r = 365 → y % 4 = 3) :
    (4 * (365 * y + y / 4 + r) + 3) / 1461 = y := by
  obtain ⟨p, u, hu0, hu1, rfl⟩ : ∃ p u, 0 ≤ u ∧ u < 4 ∧ y = 4 * p + u :=
    ⟨y / 4, y % 4, by omega, by omega, by omega⟩
  interval_cases u <;> omega

/-- Day count of the Gregorian era splits at the century. -/
theorem day_count_split (y : Int) :
    365 * y + y / 4 - y / 100 + y / 400
      = 36524 * (y / 100) + y / 100 / 4 + 365 * (y % 100) + y % 100 / 4 := by
  omega

/-- The `(b * 146097) / 4` step of `jd_to_date` in closed form. -/
theorem century_days (k : Int) : k * 146097 / 4 = 36524 * k + k / 4 := by
  omega

/-- The `(1461 * d) / 4` step of `jd_to_date` in closed form. -/
theorem year_days (k : Int) : 1461 * k / 4 = 365 * k + k / 4 := by
  omega

/-- Shifted months encoding 31-day civil months leave remainder at least 2 in
the `(153 * m + 2) / 5` day-of-year packing; this is what lets day 31 stay
inside the month on decoding. -/
theorem month31_mod5 (mm : Int) (h1 : 1 ≤ mm) (h2 : mm ≤ 12) (h3 : mm ≠ 2)
    (h4 : ¬(mm = 4 ∨ mm = 6 ∨ mm = 9 ∨ mm = 11)) :
    2 ≤ (153 * (mm + 12 * ((14 - mm) / 12) - 3) + 2) % 5 := by
  interval_cases mm <;> omega

/-- The shifted-month index is recovered from the packed day-of-shifted-year
by the `(5 * e + 2) / 153` step. -/
theorem month_of_doy (n d : Int) (h0 : 0 ≤ n) (h1 : n ≤ 11) (hd1 : 1 ≤ d)
    (hd2 : 5 * d ≤ 153 + (153 * n + 2) % 5) :
    (5 * ((153 * n + 2) / 5 + d - 1) + 2) / 153 = n := by
  interval_cases n <;> omega

/-- `jd_to_date` on a Gregorian-branch JDN written as shifted year `y` plus
day-of-shifted-year `r`: the divisions of the decoder recover `y` and `r`. -/
theorem greg_decode (j y r : Int)
    (hj : j = 365 * y + y / 4 - y / 100 + y / 400 + r - 32044)
    (h0 : 0 ≤ r) (h1 : r ≤ 365)
    (hl : r = 365 → y % 4 = 3 ∧ (y % 100 ≠ 99 ∨ y % 400 = 399))
    (hbig : 2299161 ≤ j) :
    jd_to_date j = (r - (153 * ((5 * r + 2) / 153) + 2) / 5 + 1,
                    (5 * r + 2) / 153 + 3 - 12 * ((5 * r + 2) / 153 / 10),
                    y - 4800 + (5 * r + 2) / 153 / 10) := by
  simp only [jd_to_date, fdiv_eq_div _ (by norm_num : (0:Int) ≤ 146097),
    fdiv_eq_div _ (by norm_num : (0:Int) ≤ 4), fdiv_eq_div _ (by norm_num : (0:Int) ≤ 1461),
    fdiv_eq_div _ (by norm_num : (0:Int) ≤ 153), fdiv_eq_div _ (by norm_num : (0:Int) ≤ 10),
    fdiv_eq_div _ (by norm_num : (0:Int) ≤ 5)]
  split_ifs with hcond
  · have e1 : (4 * (j + 32044) + 3) / 146097 = y / 100 := by
      have h := century_of_cycle y r h0 h1 hl
      omega
    rw [e1]
    have e2 : j + 32044 - y / 100 * 146097 / 4 = 365 * (y % 100) + y % 100 / 4 + r := by
      have hn := day_count_split y
      have hq := century_days (y / 100)
      omega
    rw [e2]
    have e3 : (4 * (365 * (y % 100) + y % 100 / 4 + r) + 3) / 1461 = y % 100 := by
      have h := year_in_century (y % 100) r (by omega) (by omega) h0 h1 (by omega)
      omega
    rw [e3]
    have e4 : 365 * (y % 100) + y % 100 / 4 + r - 1461 * (y % 100) / 4 = r := by
      have h := year_days (y % 100)
      omega
    rw [e4]
    simp only [Prod.mk.injEq, true_and]
    omega
  · omega

/-- `jd_to_date` on a Julian-branch JDN written as shifted year `y` plus
day-of-shifted-year `r`. -/
theorem julian_decode (j y r : Int)
    (hj : j = 365 * y + y / 4 + r - 32082)
    (h0 : 0 ≤ r) (h1 : r ≤ 365)
    (hl : r = 365 → y % 4 = 3)
    (hsmall : j ≤ 2299160) :
    jd_to_date j = (r - (153 * ((5 * r + 2) / 153) + 2) / 5 + 1,
                    (5 * r + 2) / 153 + 3 - 12 * ((5 * r + 2) / 153 / 10),
                    y - 4800 + (5 * r + 2) / 153 / 10) := by
  simp only [jd_to_date, fdiv_eq_div _ (by norm_num : (0:Int) ≤ 146097),
    fdiv_eq_div _ (by norm_num : (0:Int) ≤ 4), fdiv_eq_div _ (by norm_num : (0:Int) ≤ 1461),
    fdiv_eq_div _ (by norm_num : (0:Int) ≤ 153), fdiv_eq_div _ (by norm_num : (0:Int) ≤ 10),
    fdiv_eq_div _ (by norm_num : (0:Int) ≤ 5)]
  split_ifs with hcond
  · omega
  · have e1 : (4 * (j + 32082) + 3) / 1461 = y := by
      have h := year_julian y r h0 h1 hl
      omega
    rw [e1]
    have e2 : j + 32082 - 1461 * y / 4 = r := by
      have h := year_days y
      omega
    rw [e2]
    simp only [Prod.mk.injEq, true_and]
    omega

/-- C1: for every valid proleptic Julian/Gregorian calendar date
`(dd, mm, yy)`, `jd_to_date (jd_from_date dd mm yy) = (dd, mm, yy)`; the two
JDN converters are exact inverses over the supported calendar range,
including across the 1582 Julian/Gregorian transition. -/
theorem jd_roundtrip (dd mm yy : Int) (h : ValidDate dd mm yy) :
    jd_to_date (jd_from_date dd mm yy) = (dd, mm, yy) := by
  obtain ⟨hm1, hm2, hd1, hcase⟩ := h
  simp only [jd_from_date, fdiv_eq_div _ (by norm_num : (0:Int) ≤ 12),
    fdiv_eq_div _ (by norm_num : (0:Int) ≤ 5), fdiv_eq_div _ (by norm_num : (0:Int) ≤ 4),
    fdiv_eq_div _ (by norm_num : (0:Int) ≤ 100), fdiv_eq_div _ (by norm_num : (0:Int) ≤ 400)]
  rcases hcase with ⟨hside, hlen⟩ | ⟨hside, hlen⟩
  · simp only [onGregorianSide] at hside
    simp only [monthLen, gregLeap] at hlen
    split_ifs at hlen
    all_goals (
      split_ifs with hbr
      · exact absurd hbr (by omega)
      · refine (greg_decode _ (yy + 4800 - (14 - mm) / 12)
          ((153 * (mm + 12 * ((14 - mm) / 12) - 3) + 2) / 5 + dd - 1)
          (by omega) (by omega) (by omega) (by omega) (by omega)).trans ?_
        simp only [Prod.mk.injEq]
        have hm2 := month_of_doy (mm + 12 * ((14 - mm) / 12) - 3) dd (by omega) (by omega)
          (by omega)
          (by first
            | omega
            | (have ht := month31_mod5 mm (by omega) (by omega) (by assumption) (by assumption)
               omega))
        rw [hm2]
        omega)
  · simp only [onJulianSide] at hside
    simp only [monthLen, julLeap] at hlen
    split_ifs at hlen
    all_goals (
      split_ifs with hbr
      · refine (julian_decode _ (yy + 4800 - (14 - mm) / 12)
          ((153 * (mm + 12 * ((14 - mm) / 12) - 3) + 2) / 5 + dd - 1)
          (by omega) (by omega) (by omega) (by omega) (by omega)).trans ?_
        simp only [Prod.mk.injEq]
        have hm2 := month_of_doy (mm + 12 * ((14 - mm) / 12) - 3) dd (by omega) (by omega)
          (by omega)
          (by first
            | omega
            | (have ht := month31_mod5 mm (by omega) (by omega) (by assumption) (by assumption)
               omega))
        rw [hm2]
        omega
      · exact absurd (by omega : (dd + (153 * (mm + 12 * ((14 - mm) / 12) - 3) + 2) / 5 +
          365 * (yy + 4800 - (14 - mm) / 12) + (yy + 4800 - (14 - mm) / 12) / 4 -
          (yy + 4800 - (14 - mm) / 12) / 100 + (yy + 4800 - (14 - mm) / 12) / 400 - 32045 : Int) <
          2299161) hbr)

/-- Witness for C1: the leap day 2000-02-29 is a valid date and round-trips. -/
theorem jd_roundtrip_witness :
    ValidDate 29 2 2000 ∧ jd_to_date (jd_from_date 29 2 2000) = (29, 2, 2000) :=
  ⟨by decide, jd_roundtrip 29 2 2000 (by decide)⟩

/-- C5: `jd_from_date` returns the known anchor values 2451545 for 2000-01-01,
2299160 for 1582-10-04 and 2299161 for 1582-10-15 (the calendar-transition
boundary). -/
theorem jd_from_date_known_anchors :
    jd_from_date 1 1 2000 = 2451545 ∧ jd_from_date 4 10 1582 = 2299160 ∧
      jd_from_date 15 10 1582 = 2299161 := by
  decide

/-- C10: `jd_from_date` is not injective at the Gregorian transition: each of
the ten skipped calendar dates 5..14 October 1582 is mapped to the same JDN
as the corresponding date 15..24 October 1582 (namely `2299156 + d`, so
`jd_from_date 5 10 1582 = jd_from_date 15 10 1582 = 2299161`), and for these
skipped inputs `jd_to_date (jd_from_date d 10 1582) ≠ (d, 10, 1582)`. -/
theorem gregorian_gap_collapse :
    ∀ d ∈ Finset.Icc (5 : Int) 14,
      jd_from_date d 10 1582 = jd_from_date (d + 10) 10 1582 ∧
      jd_from_date d 10 1582 = 2299156 + d ∧
      jd_to_date (jd_from_date d 10 1582) ≠ (d, 10, 1582) := by
  decide

/-- Witness for C10 at the first skipped day, 1582-10-05. -/
theorem gregorian_gap_collapse_witness :
    (5 : Int) ∈ Finset.Icc (5 : Int) 14 ∧
      (jd_from_date 5 10 1582 = jd_from_date (5 + 10) 10 1582 ∧
       jd_from_date 5 10 1582 = 2299156 + 5 ∧
       jd_to_date (jd_from_date 5 10 1582) ≠ (5, 10, 1582)) :=
  ⟨by decide, gregorian_gap_collapse 5 (by decide)⟩

/-- Source dataclass `LunarDate` (frozen, structural equality). -/
structure LunarDate where
  day : Int
  month : Int
  year : Int
  leap : Bool
deriving DecidableEq

/-- The single error kind of the system, raised (as `ValueError` in Python)
by `convert_lunar_to_solar` on an inconsistent leap flag. -/
inductive LunarError where
  | invalidLeapFlag
deriving DecidableEq

/-- Source `get_lunar_month11(yy, time_zone)`, parameterized by the two
astronomical primitives.  `INT(off / 29.530588853)` is embedded exactly over
the rational value of the literal. -/
def get_lunar_month11 (newMoon sunLong : Int → Int) (yy : Int) : Int :=
  let off := jd_from_date 31 12 yy - 2415021
  let k := Int.fdiv (off * 1000000000) 29530588853
  let nm := newMoon k
  if 9 ≤ sunLong nm then newMoon (k - 1) else nm

/-- The `while True` scan of `get_leap_month_offset`: at entry `i` has just
been incremented from its previous value, `arc` holds the sector of new moon
`k + i`; the loop stops when the next sector repeats or the counter reaches
14, returning the decremented counter. -/
def leapGo (f : Int → Int) (k i arc : Int) : Int :=
  if f (k + (i + 1)) = arc ∨ 14 ≤ i + 1 then (i + 1) - 1
  else leapGo f k (i + 1) (f (k + (i + 1)))
termination_by (14 - i).toNat
decreasing_by
  rename_i h
  omega

/-- `INT((a11 - 2415021.076998695) / 29.530588853 + 0.5)`, the new-moon index
estimate computed identically in `get_leap_month_offset` and
`convert_lunar_to_solar`, embedded exactly over the rational values of the
literals. -/
def nm_k_estimate (a11 : Int) : Int :=
  Int.fdiv (2 * (a11 * 1000000000 - 2415021076998695) + 29530588853) (2 * 29530588853)

/-- Source `get_leap_month_offset(a11, time_zone)`, parameterized by the two
astronomical primitives. -/
def get_leap_month_offset (newMoon sunLong : Int → Int) (a11 : Int) : Int :=
  let k := nm_k_estimate a11
  leapGo (fun j => sunLong (newMoon j)) k 1 (sunLong (newMoon (k + 1)))

/-- Source `convert_solar_to_lunar(dd, mm, yy, time_zone)`, parameterized by
the two astronomical primitives.  `ml` packs the `(lunar_month, lunar_leap)`
pair produced by the leap-adjustment block. -/
def convert_solar_to_lunar (newMoon sunLong : Int → Int) (dd mm yy : Int) : LunarDate :=
  let day_number := jd_from_date dd mm yy
  let k := Int.fdiv (day_number * 1000000000 - 2415021076998695) 29530588853
  let ms0 := newMoon (k + 1)
  let month_start := if ms0 > day_number then newMoon k else ms0
  let m11y := get_lunar_month11 newMoon sunLong yy
  let lunar_year := if m11y ≥ month_start then yy else yy + 1
  let a11 := if m11y ≥ month_start then get_lunar_month11 newMoon sunLong (yy - 1) else m11y
  let b11 := if m11y ≥ month_start then m11y else get_lunar_month11 newMoon sunLong (yy + 1)
  let lunar_day := day_number - month_start + 1
  let diff := Int.fdiv (month_start - a11) 29
  let ml : Int × Bool :=
    if b11 - a11 > 365 then
      let leap_month_diff := get_leap_month_offset newMoon sunLong a11
      if diff ≥ leap_month_diff then
        (diff + 10, decide (diff = leap_month_diff))
      else (diff + 11, false)
    else (diff + 11, false)
  let lunar_month := if ml.1 > 12 then ml.1 - 12 else ml.1
  let lunar_year2 := if lunar_month ≥ 11 ∧ diff < 4 then lunar_year - 1 else lunar_year
  ⟨lunar_day, lunar_month, lunar_year2, ml.2⟩

/-- Source `convert_lunar_to_solar(lunar_day, lunar_month, lunar_year,
lunar_leap, time_zone)`, parameterized by the two astronomical primitives.
The `ValueError` raise is modelled as `Except.error`. -/
def convert_lunar_to_solar (newMoon sunLong : Int → Int)
    (lunar_day lunar_month lunar_year lunar_leap : Int) :
    Except LunarError (Int × Int × Int) :=
  let a11 := if lunar_month < 11 then get_lunar_month11 newMoon sunLong (lunar_year - 1)
             else get_lunar_month11 newMoon sunLong lunar_year
  let b11 := if lunar_month < 11 then get_lunar_month11 newMoon sunLong lunar_year
             else get_lunar_month11 newMoon sunLong (lunar_year + 1)
  let off0 := lunar_month - 11
  let off := if off0 < 0 then off0 + 12 else off0
  if b11 - a11 > 365 then
    let leap_off := get_leap_month_offset newMoon sunLong a11
    let lm0 := leap_off - 2
    let leap_month := if lm0 < 0 then lm0 + 12 else lm0
    if lunar_leap ≠ 0 ∧ lunar_month ≠ leap_month then
      .error .invalidLeapFlag
    else
      let off2 := if lunar_leap ≠ 0 ∨ off ≥ leap_off then off + 1 else off
      let month_start := newMoon (nm_k_estimate a11 + off2)
      .ok (jd_to_date (month_start + lunar_day - 1))
  else
    let month_start := newMoon (nm_k_estimate a11 + off)
    .ok (jd_to_date (month_start + lunar_day - 1))

/-- Invariant of the leap-month scan: entered at counter `i` with `arc` the
sector of new moon `k + i`, it returns a value in `i .. 13`, and that value
either marks the first of two consecutive new moons of equal sector or is the
forced cutoff 13. -/
theorem leapGo_spec (f : Int → Int) (k : Int) :
    ∀ n : Nat, ∀ i arc, i = 13 - (n : Int) → 1 ≤ i → arc = f (k + i) →
      i ≤ leapGo f k i arc ∧ leapGo f k i arc ≤ 13 ∧
        (f (k + leapGo f k i arc) = f (k + leapGo f k i arc + 1) ∨
          leapGo f k i arc = 13) := by
  intro n
  induction n with
  | zero =>
    intro i arc hi h1 harc
    have hi13 : i = 13 := by omega
    subst hi13
    rw [leapGo, if_pos (Or.inr (by norm_num))]
    exact ⟨by norm_num, by norm_num, Or.inr (by norm_num)⟩
  | succ m ih =>
    intro i arc hi h1 harc
    have hle : i ≤ 12 := by omega
    rw [leapGo]
    split_ifs with hc
    · rcases hc with hceq | hge
      · refine ⟨by omega, by omega, Or.inl ?_⟩
        have e1 : k + (i + 1 - 1) = k + i := by omega
        have e2 : k + i + 1 = k + (i + 1) := by omega
        rw [e1, e2]
        exact harc.symm.trans hceq.symm
      · exact absurd hge (by omega)
    · have hrec := ih (i + 1) (f (k + (i + 1))) (by omega) (by omega) rfl
      exact ⟨by have := hrec.1; omega, hrec.2.1, hrec.2.2⟩

/-- C8: for every month-11 anchor and every instantiation of the astronomical
primitives, the scan of `get_leap_month_offset` terminates with an offset in
1..13, stopping either at the first of two consecutive new moons with equal
sun-longitude sectors or at the 14-step safety bound (offset 13). -/
theorem get_leap_month_offset_bounds (newMoon sunLong : Int → Int) (a11 : Int) :
    1 ≤ get_leap_month_offset newMoon sunLong a11 ∧
      get_leap_month_offset newMoon sunLong a11 ≤ 13 ∧
      (sunLong (newMoon (nm_k_estimate a11 + get_leap_month_offset newMoon sunLong a11)) =
          sunLong (newMoon (nm_k_estimate a11 + get_leap_month_offset newMoon sunLong a11 + 1)) ∨
        get_leap_month_offset newMoon sunLong a11 = 13) := by
  simp only [get_leap_month_offset]
  have h := leapGo_spec (fun j => sunLong (newMoon j)) (nm_k_estimate a11) 12 1
    ((fun j => sunLong (newMoon j)) (nm_k_estimate a11 + 1)) (by norm_num) (by norm_num) rfl
  simp only [] at h
  exact ⟨h.1, h.2.1, h.2.2⟩

/-- C9: solar-to-lunar conversion is total — for every input date and every
instantiation of the astronomical primitives, `convert_solar_to_lunar`
produces a fully populated `LunarDate` (its totality rests on the bounded
termination of the leap-month scan proved above). -/
theorem convert_solar_to_lunar_total (newMoon sunLong : Int → Int) (dd mm yy : Int) :
    ∃ d m y l, convert_solar_to_lunar newMoon sunLong dd mm yy = LunarDate.mk d m y l :=
  ⟨_, _, _, _, rfl⟩

/-- Counterexample to C3: a lunar year whose consecutive month-11 anchors are
at most 365 days apart (here both anchors equal, with constant astronomical
primitives) does NOT make `convert_lunar_to_solar` raise the invalid-leap-flag
error when `leap = 1`; the leap-flag check is inside the 13-month branch, so
the call succeeds.  The input mirrors the spec's own example
`(1, 3, 2004, leap)`. -/
theorem leap_flag_12month_cex :
    (get_lunar_month11 (fun _ => 0) (fun _ => 0) 2004 -
        get_lunar_month11 (fun _ => 0) (fun _ => 0) 2003 ≤ 365) ∧
      convert_lunar_to_solar (fun _ => 0) (fun _ => 0) 1 3 2004 1 =
        Except.ok (1, 1, -4712) :=
  ⟨by decide, rfl⟩

/-- C3 amended: when the two month-11 anchors bracketing the lunar year are at
most 365 days apart (a 12-month lunar year), `convert_lunar_to_solar` never
checks the leap flag and never raises the invalid-leap-flag error — it
returns a date for every input, whatever the leap flag. -/
theorem no_leap_check_12month (newMoon sunLong : Int → Int) (ld lm ly leap : Int)
    (h : (if lm < 11 then get_lunar_month11 newMoon sunLong ly
          else get_lunar_month11 newMoon sunLong (ly + 1)) -
        (if lm < 11 then get_lunar_month11 newMoon sunLong (ly - 1)
          else get_lunar_month11 newMoon sunLong ly) ≤ 365) :
    ∃ t, convert_lunar_to_solar newMoon sunLong ld lm ly leap = Except.ok t := by
  simp only [convert_lunar_to_solar]
  split_ifs at h ⊢ <;> first | exact ⟨_, rfl⟩ | omega

/-- Witness for the amended C3 at the spec's example input, with constant
astronomical primitives (both anchors 0, a 12-month structure). -/
theorem no_leap_check_12month_witness :
    (get_lunar_month11 (fun _ => 0) (fun _ => 0) 2004 -
        get_lunar_month11 (fun _ => 0) (fun _ => 0) 2003 ≤ 365) ∧
      ∃ t, convert_lunar_to_solar (fun _ => 0) (fun _ => 0) 1 3 2004 1 = Except.ok t :=
  ⟨by decide, no_leap_check_12month (fun _ => 0) (fun _ => 0) 1 3 2004 1 (by decide)⟩

end LunarVN
